import Mathlib

/-!
# pypopsift: the extraction orchestrator of `src/popsift.cpp`

A shallow embedding of `pps::PopSiftContext::setup`, `pps::PopSiftContext::get`
and `pps::popsift`.

Modelling conventions.

* `float` values are exact rationals (`ℚ`): no rounding, no NaN, no infinities.
* `int` and `size_t` values are unbounded (`Int`, `Nat`): image dimensions,
  keypoint counts and `totalFeatures` are taken to fit their machine types.
* The GPU engine (`PopSift`, `SiftJob`, `popsift::Features`) is a black box: an
  arbitrary state machine `Engine σ κ` whose operations may throw.
* The globals `ctx` and `g_mutex` live in a `World`, together with a ghost
  `trace` of the calls made, so that "no call happened" can be stated.
* A C++ exception and undefined behaviour (null dereference, out-of-bounds
  access) are both outcomes `Except.error _`; the world at that point is kept.
* The `while(true)` loop takes a fuel argument; `none` means out of fuel.
-/

namespace pps

/-! ## Engine-side types (the popsift library) -/

/-- Descriptor normalisation, `popsift::Config::NormMode`. -/
inductive NormMode where
  | RootSift
  | Classic
  deriving DecidableEq, Repr

/-- Grid filter order, `popsift::Config::GridFilterMode`. -/
inductive GridFilterMode where
  | RandomScale
  | LargestScaleFirst
  | SmallestScaleFirst
  deriving DecidableEq, Repr

/-- Operating mode, `popsift::Config::SiftMode`. -/
inductive SiftMode where
  | PopSift
  | OpenCV
  | VLFeat
  deriving DecidableEq, Repr

/-- Second constructor argument of `PopSift`, `popsift::Config::ProcessingMode`. -/
inductive ProcessingMode where
  | ExtractingMode
  | MatchingMode
  deriving DecidableEq, Repr

/-- Third constructor argument of `PopSift`, `PopSift::ImageMode`. -/
inductive ImageMode where
  | ByteImages
  | FloatImages
  deriving DecidableEq, Repr

/-- The fields of `popsift::Config` that `setup` writes through the setters
`setThreshold`, `setEdgeLimit`, `setNormMode`, `setFilterSorting`, `setMode`
and `setDownsampling`. -/
structure Config where
  threshold : ℚ
  edgeLimit : ℚ
  normMode : NormMode
  filterSorting : GridFilterMode
  siftMode : SiftMode
  downsampling : ℚ
  deriving DecidableEq, Repr

/-- One descriptor, `popsift::Descriptor`: `float features[128]`. -/
structure Descriptor where
  features : Fin 128 → ℚ

/-- One keypoint, `popsift::Feature`. The arrays `orientation` and `desc` are
lists; reading them past their end is an out-of-bounds access. -/
structure Feature where
  xpos : ℚ
  ypos : ℚ
  sigma : ℚ
  num_ori : Nat
  orientation : List ℚ
  desc : List Descriptor

/-- The result set of one job, `popsift::Features`. -/
structure Features where
  feature_list : List Feature

/-- Number of keypoints, `Features::getFeatureCount()` (an `int`). -/
def Features.getFeatureCount (r : Features) : Int := (r.feature_list.length : Int)

/-- The list of keypoints, `Features::getFeatures()`. -/
def Features.getFeatures (r : Features) : List Feature := r.feature_list

/-- How an execution can leave the normal path. -/
inductive Err where
  /-- An exception thrown by the engine. -/
  | engineFailure
  /-- A member call through a null pointer. -/
  | nullDeref
  /-- A read or write past the end of an array. -/
  | outOfBounds
  /-- A `lock()` on a mutex that is already held: the call never returns. -/
  | deadlock
  deriving DecidableEq, Repr

/-- The engine as a black box. `σ` is the state behind a `PopSift*` handle, `κ`
the state behind a `SiftJob*`. `none` and `false` mean that the call threw. -/
structure Engine (σ κ : Type) where
  /-- The expression `new PopSift(config, mode, imageMode)`. -/
  construct : Config → ProcessingMode → ImageMode → Option σ
  /-- The call `ps->configure(config, force)`. -/
  configure : σ → Config → Bool → σ × Bool
  /-- The call `ps->enqueue(width, height, data)`. -/
  enqueue : σ → Int → Int → List Nat → σ × Option κ
  /-- The call `job->get()`. -/
  jobGet : σ → κ → σ × Option Features

/-! ## The context and the globals -/

/-- The calls that leave the orchestrator, in the order they are made. -/
inductive Event where
  | deviceSet (device : Nat) (printInfo : Bool)
  | lock
  | unlock
  | setup (peak_threshold edge_threshold : ℚ) (use_root : Bool) (downsampling : ℚ)
  | construct (config : Config) (mode : ProcessingMode) (imageMode : ImageMode)
  | configure (config : Config) (force : Bool)
  | enqueue (width height : Int)
  | jobGet
  deriving DecidableEq, Repr

/-- The class `PopSiftContext`: the handle `ps` (`none` is `nullptr`), the
configuration object and the last-applied parameters. -/
structure PopSiftContext (σ : Type) where
  ps : Option σ
  config : Config
  peak_threshold : ℚ
  edge_threshold : ℚ
  use_root : Bool
  downsampling : ℚ

/-- The values the members of a `PopSiftContext` have when its constructor
body starts. The class declaration is in `popsift.h`, which is not part of the
sources, so these values are a parameter of the model. -/
structure ContextDefaults where
  config : Config
  peak_threshold : ℚ
  edge_threshold : ℚ
  use_root : Bool
  downsampling : ℚ

/-- The constructor `PopSiftContext::PopSiftContext()`: `ps(nullptr)`, every
other member at its declared initial value. -/
def PopSiftContext.new {σ : Type} (d : ContextDefaults) : PopSiftContext σ :=
  { ps := none, config := d.config, peak_threshold := d.peak_threshold,
    edge_threshold := d.edge_threshold, use_root := d.use_root,
    downsampling := d.downsampling }

/-- The method `PopSiftContext::get()`. -/
def PopSiftContext.get {σ : Type} (self : PopSiftContext σ) : Option σ := self.ps

/-- The method `PopSiftContext::setup`. Returns the exception thrown, if any,
the context after the call and the extended trace. -/
def PopSiftContext.setup {σ κ : Type} (eng : Engine σ κ) (self : PopSiftContext σ)
    (trace : List Event) (peak_threshold edge_threshold : ℚ) (use_root : Bool)
    (downsampling : ℚ) : Option Err × PopSiftContext σ × List Event :=
  let trace := trace ++ [Event.setup peak_threshold edge_threshold use_root downsampling]
  let changed := false
  let (self, changed) :=
    if self.peak_threshold ≠ peak_threshold then
      ({ self with peak_threshold := peak_threshold }, true) else (self, changed)
  let (self, changed) :=
    if self.edge_threshold ≠ edge_threshold then
      ({ self with edge_threshold := edge_threshold }, true) else (self, changed)
  let (self, changed) :=
    if self.use_root ≠ use_root then
      ({ self with use_root := use_root }, true) else (self, changed)
  let (self, changed) :=
    if self.downsampling ≠ downsampling then
      ({ self with downsampling := downsampling }, true) else (self, changed)
  if changed then
    let config : Config :=
      { self.config with
        threshold := peak_threshold
        edgeLimit := edge_threshold
        normMode := if use_root then NormMode.RootSift else NormMode.Classic
        filterSorting := GridFilterMode.LargestScaleFirst
        siftMode := SiftMode.OpenCV
        downsampling := downsampling }
    let self := { self with config := config }
    match self.ps with
    | none =>
      let trace := trace ++
        [Event.construct config ProcessingMode.ExtractingMode ImageMode.ByteImages]
      match eng.construct config ProcessingMode.ExtractingMode ImageMode.ByteImages with
      | some s => (none, { self with ps := some s }, trace)
      | none => (some Err.engineFailure, self, trace)
    | some s =>
      let trace := trace ++ [Event.configure config false]
      match eng.configure s config false with
      | (s, true) => (none, { self with ps := some s }, trace)
      | (s, false) => (some Err.engineFailure, { self with ps := some s }, trace)
  else
    (none, self, trace)

/-- The globals of the translation unit: `ctx` (`none` is `nullptr`) and
`g_mutex` (`true` is held), and the ghost trace of calls. -/
structure World (σ : Type) where
  ctx : Option (PopSiftContext σ)
  g_mutex : Bool
  trace : List Event

/-- The mutex operation `g_mutex.lock()`; `none` when the mutex is already held. -/
def World.lock {σ : Type} (w : World σ) : Option (World σ) :=
  if w.g_mutex then none
  else some { w with g_mutex := true, trace := w.trace ++ [Event.lock] }

/-- The mutex operation `g_mutex.unlock()`. -/
def World.unlock {σ : Type} (w : World σ) : World σ :=
  { w with g_mutex := false, trace := w.trace ++ [Event.unlock] }

/-- Lines 75 and 76: `enqueue` on the handle `s`, then `job->get()`. Returns the
result set (`none` when either call threw), the engine state and the trace. -/
def enqueueAndGet {σ κ : Type} (eng : Engine σ κ) (s : σ) (width height : Int)
    (data : List Nat) (trace : List Event) : Option Features × σ × List Event :=
  let trace := trace ++ [Event.enqueue width height]
  match eng.enqueue s width height data with
  | (s, none) => (none, s, trace)
  | (s, some job) =>
    let trace := trace ++ [Event.jobGet]
    match eng.jobGet s job with
    | (s, result) => (result, s, trace)

/-- One dispatch, lines 73 to 77 of `popsift`: lock, `ctx->setup`,
`ctx->get()->enqueue`, `job->get()`, unlock. An exception or undefined
behaviour leaves the function at once, with the world as it is then. -/
def dispatch {σ κ : Type} (eng : Engine σ κ) (w : World σ) (width height : Int)
    (data : List Nat) (peak_threshold edge_threshold : ℚ) (use_root : Bool)
    (downsampling : ℚ) : Except Err Features × World σ :=
  match w.lock with
  | none => (Except.error Err.deadlock, w)
  | some w =>
    match w.ctx with
    | none => (Except.error Err.nullDeref, w)
    | some c =>
      match c.setup eng w.trace peak_threshold edge_threshold use_root downsampling with
      | (some e, c, trace) => (Except.error e, { w with ctx := some c, trace := trace })
      | (none, c, trace) =>
        match c.get with
        | none => (Except.error Err.nullDeref, { w with ctx := some c, trace := trace })
        | some s =>
          match enqueueAndGet eng s width height data trace with
          | (none, s, trace) =>
            (Except.error Err.engineFailure,
              { w with ctx := some { c with ps := some s }, trace := trace })
          | (some result, s, trace) =>
            (Except.ok result,
              World.unlock { w with ctx := some { c with ps := some s }, trace := trace })

/-! ## Flattening -/

/-- A geometry tuple, `std::array<float, 4>`: x, y, scale, orientation. -/
abbrev Point := ℚ × ℚ × ℚ × ℚ

/-- A descriptor row, `std::array<float, 128>`. -/
abbrev DescRow := Fin 128 → ℚ

/-- The function `std::round`: to the nearest integer, halfway cases away from zero. -/
def stdRound (q : ℚ) : ℤ := if 0 ≤ q then ⌊q + 1 / 2⌋ else ⌈q - 1 / 2⌉

/-- The function `std::min<float>(a, b)`: `b` when `b < a`, else `a`. -/
def stdMin (a b : ℚ) : ℚ := if b < a then b else a

/-- The first loop of the flattening, lines 83 to 86: `totalFeatures`. -/
def totalFeatures (feature_list : List Feature) : Nat :=
  feature_list.foldl (fun total f => total + f.num_ori) 0

/-- The two output vectors and the write position `index`. -/
structure Buffers where
  points : List Point
  desc : List DescRow
  index : Nat

/-- The body of the inner loop, lines 93 to 101, for one `oriIdx`. -/
def writeEntry (width height : Int) (pFeat : Feature) (b : Buffers) (oriIdx : Nat) :
    Except Err Buffers :=
  match pFeat.desc.get? oriIdx, pFeat.orientation.get? oriIdx with
  | some pDesc, some ori =>
    if b.index < b.desc.length ∧ b.index < b.points.length then
      Except.ok
        { desc := b.desc.set b.index (fun j => pDesc.features j)
          points := b.points.set b.index
            (stdMin (stdRound pFeat.xpos) ((width - 1 : Int) : ℚ),
             stdMin (stdRound pFeat.ypos) ((height - 1 : Int) : ℚ),
             pFeat.sigma,
             ori)
          index := b.index + 1 }
    else Except.error Err.outOfBounds
  | _, _ => Except.error Err.outOfBounds

/-- The inner loop, lines 92 to 102: `oriIdx` from 0 up to `num_ori`. -/
def writeFeature (width height : Int) (b : Buffers) (pFeat : Feature) : Except Err Buffers :=
  (List.range pFeat.num_ori).foldlM (writeEntry width height pFeat) b

/-- The flattening, lines 82 to 106: count, allocate two zero-filled vectors
of `totalFeatures` entries, fill them in keypoint order. -/
def flatten (result : Features) (width height : Int) :
    Except Err (List Point × List DescRow) :=
  let feature_list := result.getFeatures
  let total := totalFeatures feature_list
  let b : Buffers :=
    { points := List.replicate total (0, 0, 0, 0)
      desc := List.replicate total (fun _ => 0)
      index := 0 }
  match feature_list.foldlM (writeFeature width height) b with
  | Except.error e => Except.error e
  | Except.ok b => Except.ok (b.points, b.desc)

/-! ## The entry point -/

/-- The argument `image`: a two-dimensional array of bytes, `shape0` rows of
`shape1` pixels. -/
structure Image where
  shape0 : Nat
  shape1 : Nat
  data : List Nat

/-- Number of elements, `image.size()`. -/
def Image.size (image : Image) : Nat := image.shape0 * image.shape1

/-- The retry loop, lines 72 to 111. `none`: the fuel ran out. The value
`some (Except.ok (pts, descs))` is the returned tuple of two lists. -/
def popsiftLoop {σ κ : Type} (eng : Engine σ κ) (width height : Int) (data : List Nat)
    (edge_threshold : ℚ) (target_num_features : Int) (use_root : Bool) (downsampling : ℚ) :
    Nat → World σ → ℚ → Option (Except Err (Option (List Point × List DescRow)) × World σ)
  | 0, _, _ => none
  | fuel + 1, w, peak_threshold =>
    match dispatch eng w width height data peak_threshold edge_threshold use_root
        downsampling with
    | (Except.error e, w) => some (Except.error e, w)
    | (Except.ok result, w) =>
      let numFeatures := result.getFeatureCount
      if numFeatures ≥ target_num_features ∨ peak_threshold < 1 / 10000 then
        some (Except.map some (flatten result width height), w)
      else
        popsiftLoop eng width height data edge_threshold target_num_features use_root
          downsampling fuel w (peak_threshold * 2 / 3)

/-- Line 66: `if (!ctx) ctx = new PopSiftContext();`. The constructor selects
device 0 through `deviceInfo.set(0, false)`. -/
def ensureContext {σ : Type} (d : ContextDefaults) (w : World σ) : World σ :=
  match w.ctx with
  | some _ => w
  | none =>
    { w with ctx := some (PopSiftContext.new d)
             trace := w.trace ++ [Event.deviceSet 0 false] }

/-- The function `popsift`. The result `Except.ok none` is `py::none()`. -/
def popsift {σ κ : Type} (eng : Engine σ κ) (d : ContextDefaults) (fuel : Nat) (w : World σ)
    (image : Image) (peak_threshold edge_threshold : ℚ) (target_num_features : Int)
    (use_root : Bool) (downsampling : ℚ) :
    Option (Except Err (Option (List Point × List DescRow)) × World σ) :=
  if image.size = 0 then some (Except.ok none, w) else
  let w := ensureContext d w
  let width : Int := image.shape1
  let height : Int := image.shape0
  popsiftLoop eng width height image.data edge_threshold target_num_features use_root
    downsampling fuel w peak_threshold

/-! ## Specification-side definitions and predicates -/

/-- The geometry tuple the spec gives for a keypoint and one of its orientations. -/
def geometryTuple (width height : Int) (f : Feature) (ori : ℚ) : Point :=
  (stdMin (stdRound f.xpos) ((width - 1 : Int) : ℚ),
   stdMin (stdRound f.ypos) ((height - 1 : Int) : ℚ), f.sigma, ori)

/-- The pairs one keypoint contributes, in orientation order. -/
def featureEntries (width height : Int) (f : Feature) : List (Point × DescRow) :=
  (f.orientation.zip f.desc).map (fun od => (geometryTuple width height f od.1, od.2.features))

/-- The flattened output as the spec words it. -/
def flattenSpec (feature_list : List Feature) (width height : Int) : List (Point × DescRow) :=
  feature_list.flatMap (featureEntries width height)

/-- The orientation and descriptor arrays of a keypoint hold exactly `num_ori`
entries each. -/
def Feature.Aligned (f : Feature) : Prop :=
  f.orientation.length = f.num_ori ∧ f.desc.length = f.num_ori

/-- Buffers in which the pairs `L` are written and `n` zero-filled slots remain. -/
def Buffers.filled (L : List (Point × DescRow)) (n : Nat) : Buffers :=
  { points := L.map Prod.fst ++ List.replicate n (0, 0, 0, 0)
    desc := L.map Prod.snd ++ List.replicate n (fun _ => 0)
    index := L.length }

/-- The four parameters of a call equal the stored last-applied ones. -/
def PopSiftContext.sameParams {σ : Type} (self : PopSiftContext σ)
    (peak_threshold edge_threshold : ℚ) (use_root : Bool) (downsampling : ℚ) : Prop :=
  self.peak_threshold = peak_threshold ∧ self.edge_threshold = edge_threshold ∧
    self.use_root = use_root ∧ self.downsampling = downsampling

instance {σ : Type} (self : PopSiftContext σ) (p e : ℚ) (r : Bool) (d : ℚ) :
    Decidable (self.sameParams p e r d) := by
  unfold PopSiftContext.sameParams; infer_instance

/-- The configuration `setup` writes for the given parameters. -/
def translatedConfig (peak_threshold edge_threshold : ℚ) (use_root : Bool)
    (downsampling : ℚ) : Config :=
  { threshold := peak_threshold
    edgeLimit := edge_threshold
    normMode := if use_root then NormMode.RootSift else NormMode.Classic
    filterSorting := GridFilterMode.LargestScaleFirst
    siftMode := SiftMode.OpenCV
    downsampling := downsampling }

/-- The context with the parameters of a call stored and translated, and the
handle set to `ps`. -/
def PopSiftContext.applied {σ : Type} (ps : Option σ) (peak_threshold edge_threshold : ℚ)
    (use_root : Bool) (downsampling : ℚ) : PopSiftContext σ :=
  { ps := ps
    config := translatedConfig peak_threshold edge_threshold use_root downsampling
    peak_threshold := peak_threshold
    edge_threshold := edge_threshold
    use_root := use_root
    downsampling := downsampling }

/-- Number of jobs submitted to the engine: the `enqueue` calls in a trace. -/
def enqueueCount (trace : List Event) : Nat :=
  (trace.filter (fun ev => match ev with
    | Event.enqueue _ _ => true
    | _ => false)).length

/-- The peak thresholds of the `setup` calls in a trace, in call order. -/
def setupThresholds (trace : List Event) : List ℚ :=
  trace.filterMap (fun ev => match ev with
    | Event.setup p _ _ _ => some p
    | _ => none)

/-- No operation of the engine throws. -/
structure Engine.NonFailing {σ κ : Type} (eng : Engine σ κ) : Prop where
  construct : ∀ c m i, (eng.construct c m i).isSome = true
  configure : ∀ s c f, (eng.configure s c f).2 = true
  enqueue : ∀ s w h d, (eng.enqueue s w h d).2.isSome = true
  jobGet : ∀ s j, (eng.jobGet s j).2.isSome = true

/-- The mutex is free, a context exists, and it holds a handle or will build
one in the coming `setup` call. -/
def World.Ready {σ : Type} (w : World σ) (p e : ℚ) (r : Bool) (d : ℚ) : Prop :=
  w.g_mutex = false ∧
    ∃ c, w.ctx = some c ∧ (c.ps.isSome = true ∨ ¬ c.sameParams p e r d)

/-- The mutex is free and the context holds a handle. -/
def World.Settled {σ : Type} (w : World σ) : Prop :=
  w.g_mutex = false ∧ ∃ c, w.ctx = some c ∧ c.ps.isSome = true

/-- What a successful dispatch leaves behind. -/
structure DispatchPost {σ κ : Type} (eng : Engine σ κ) (w w' : World σ) (p : ℚ)
    (result : Features) : Prop where
  settled : w'.Settled
  enqueued : enqueueCount w'.trace = enqueueCount w.trace + 1
  thresholds : setupThresholds w'.trace = setupThresholds w.trace ++ [p]
  collected : ∃ s j, (eng.jobGet s j).2 = some result


/-- Number of fields in which the parameters of a call differ from the stored
last-applied ones. -/
def PopSiftContext.diffCount {σ : Type} (self : PopSiftContext σ)
    (peak_threshold edge_threshold : ℚ) (use_root : Bool) (downsampling : ℚ) : Nat :=
  (if self.peak_threshold ≠ peak_threshold then 1 else 0) +
    (if self.edge_threshold ≠ edge_threshold then 1 else 0) +
    (if self.use_root ≠ use_root then 1 else 0) +
    (if self.downsampling ≠ downsampling then 1 else 0)

/-- Every job of the engine comes back with zero keypoints. -/
def Engine.ZeroKeypoints {σ κ : Type} (eng : Engine σ κ) : Prop :=
  ∀ s j, (eng.jobGet s j).2 = some { feature_list := [] }

/-- An engine that never throws and reports the same keypoints for every job. -/
def constEngine (fs : List Feature) : Engine Unit Unit :=
  { construct := fun _ _ _ => some ()
    configure := fun s _ _ => (s, true)
    enqueue := fun s _ _ _ => (s, some ())
    jobGet := fun s _ => (s, some { feature_list := fs }) }

/-- An engine whose `enqueue` throws. -/
def enqueueThrows : Engine Unit Unit :=
  { construct := fun _ _ _ => some ()
    configure := fun s _ _ => (s, true)
    enqueue := fun s _ _ _ => (s, none)
    jobGet := fun s _ => (s, some { feature_list := [] }) }

/-- Member initial values: parameters `(0, 0, true, 0)`. -/
def sampleDefaults : ContextDefaults :=
  { config :=
      { threshold := 1 / 25, edgeLimit := 10, normMode := NormMode.RootSift,
        filterSorting := GridFilterMode.RandomScale, siftMode := SiftMode.PopSift,
        downsampling := -1 }
    peak_threshold := 0
    edge_threshold := 0
    use_root := true
    downsampling := 0 }

/-- The globals at program start: no context, mutex free, nothing called yet. -/
def freshWorld : World Unit := { ctx := none, g_mutex := false, trace := [] }

/-- A context that holds a handle, with stored parameters `(1/10, 10, true, 0)`. -/
def configuredContext : PopSiftContext Unit :=
  PopSiftContext.applied (some ()) (1 / 10) 10 true 0

/-- Globals in which an earlier call has left `configuredContext`. -/
def configuredWorld : World Unit :=
  { ctx := some configuredContext, g_mutex := false, trace := [] }

/-- A one-pixel image. -/
def onePixel : Image := { shape0 := 1, shape1 := 1, data := [0] }

/-- An image with no rows. -/
def emptyImage : Image := { shape0 := 0, shape1 := 5, data := [] }

/-- A keypoint left of the image, at `xpos = -1`, with one orientation. -/
def leftKeypoint : Feature :=
  { xpos := -1, ypos := 0, sigma := 1, num_ori := 1, orientation := [0],
    desc := [{ features := fun _ => 0 }] }

/-- A keypoint with two orientations. -/
def twoOriKeypoint : Feature :=
  { xpos := 7 / 2, ypos := 9, sigma := 2, num_ori := 2, orientation := [1, 3],
    desc := [{ features := fun _ => 5 }, { features := fun _ => 6 }] }

/-- A keypoint with no orientation. -/
def noOriKeypoint : Feature :=
  { xpos := 1, ypos := 1, sigma := 1, num_ori := 0, orientation := [], desc := [] }

/-- Three keypoints with two, zero and one orientation. -/
def threeKeypoints : List Feature := [twoOriKeypoint, noOriKeypoint, leftKeypoint]

/-- The world `constEngine` leaves after one dispatch from `configuredWorld`
on a one-pixel image. -/
def dispatchedWorld : World Unit :=
  { ctx := some configuredContext, g_mutex := false,
    trace := [Event.lock, Event.setup (1 / 10) 10 true 0, Event.enqueue 1 1,
      Event.jobGet, Event.unlock] }

/-! ## Flattening: lemmas -/

theorem totalFeatures_foldl (l : List Feature) (a : Nat) :
    l.foldl (fun total f => total + f.num_ori) a = a + (l.map Feature.num_ori).sum := by
  induction l generalizing a with
  | nil => simp
  | cons f l ih => simp [ih, Nat.add_assoc]

theorem totalFeatures_eq_sum (l : List Feature) :
    totalFeatures l = (l.map Feature.num_ori).sum := by
  simp [totalFeatures, totalFeatures_foldl]

theorem writeEntry_length {width height : Int} {f : Feature} {b b' : Buffers} {k : Nat}
    (h : writeEntry width height f b k = Except.ok b') :
    b'.points.length = b.points.length ∧ b'.desc.length = b.desc.length ∧
      b'.index = b.index + 1 := by
  unfold writeEntry at h
  split at h
  · split at h
    · cases h; simp
    · cases h
  · cases h

theorem foldlM_writeEntry_length {width height : Int} {f : Feature} (l : List Nat) :
    ∀ {b b' : Buffers}, l.foldlM (writeEntry width height f) b = Except.ok b' →
    b'.points.length = b.points.length ∧ b'.desc.length = b.desc.length ∧
      b'.index = b.index + l.length := by
  induction l with
  | nil => intro b b' h; simp [pure, Except.pure] at h; subst h; simp
  | cons k l ih =>
    intro b b' h
    rw [List.foldlM_cons] at h
    cases hk : writeEntry width height f b k with
    | error e => rw [hk] at h; simp [bind, Except.bind] at h
    | ok b1 =>
      rw [hk] at h
      simp only [bind, Except.bind] at h
      obtain ⟨h1, h2, h3⟩ := writeEntry_length hk
      obtain ⟨h4, h5, h6⟩ := ih h
      refine ⟨by omega, by omega, ?_⟩
      simp; omega

theorem writeEntry_filled (width height : Int) (f : Feature) (L : List (Point × DescRow))
    (n k : Nat) (o : ℚ) (d : Descriptor) (ho : f.orientation.get? k = some o)
    (hd : f.desc.get? k = some d) :
    writeEntry width height f (Buffers.filled L (n + 1)) k =
      Except.ok (Buffers.filled (L ++ [(geometryTuple width height f o, d.features)]) n) := by
  unfold writeEntry
  rw [ho, hd]
  simp [Buffers.filled, List.set_append, List.replicate_succ, geometryTuple]

theorem featureEntries_take_succ (width height : Int) (f : Feature) (k : Nat) (o : ℚ)
    (d : Descriptor) (ho : f.orientation.get? k = some o) (hd : f.desc.get? k = some d) :
    (featureEntries width height f).take (k + 1) =
      (featureEntries width height f).take k ++ [(geometryTuple width height f o, d.features)] := by
  rw [List.take_succ]
  congr 1
  simp only [List.get?_eq_getElem?] at ho hd
  have hz : (f.orientation.zip f.desc)[k]? = some (o, d) :=
    List.getElem?_zip_eq_some.mpr ⟨ho, hd⟩
  simp [featureEntries, List.getElem?_map, hz]

theorem featureEntries_length (width height : Int) (f : Feature) (h : f.Aligned) :
    (featureEntries width height f).length = f.num_ori := by
  simp [featureEntries, h.1, h.2]

theorem foldlM_range_filled (width height : Int) (f : Feature) (h : f.Aligned)
    (L : List (Point × DescRow)) (n : Nat) :
    ∀ k, k ≤ f.num_ori → k ≤ n →
      (List.range k).foldlM (writeEntry width height f) (Buffers.filled L n) =
        Except.ok (Buffers.filled (L ++ (featureEntries width height f).take k) (n - k)) := by
  intro k
  induction k with
  | zero => intro _ _; simp [pure, Except.pure]
  | succ k ih =>
    intro hk hn
    have hko : k < f.orientation.length := by rw [h.1]; omega
    have hkd : k < f.desc.length := by rw [h.2]; omega
    have ho : f.orientation.get? k = some (f.orientation[k]) := by
      rw [List.get?_eq_getElem?]; exact List.getElem?_eq_getElem hko
    have hd : f.desc.get? k = some (f.desc[k]) := by
      rw [List.get?_eq_getElem?]; exact List.getElem?_eq_getElem hkd
    rw [List.range_succ, List.foldlM_append, ih (by omega) (by omega)]
    simp only [bind, Except.bind, List.foldlM_cons, List.foldlM_nil, pure, Except.pure]
    have hn1 : n - k = (n - (k + 1)) + 1 := by omega
    rw [hn1, writeEntry_filled width height f _ _ k _ _ ho hd,
      featureEntries_take_succ width height f k _ _ ho hd, List.append_assoc]

theorem writeFeature_filled (width height : Int) (f : Feature) (h : f.Aligned)
    (L : List (Point × DescRow)) (n : Nat) (hn : f.num_ori ≤ n) :
    writeFeature width height (Buffers.filled L n) f =
      Except.ok (Buffers.filled (L ++ featureEntries width height f) (n - f.num_ori)) := by
  unfold writeFeature
  rw [foldlM_range_filled width height f h L n f.num_ori le_rfl hn,
    List.take_of_length_le (by rw [featureEntries_length width height f h])]

theorem foldlM_writeFeature_filled (width height : Int) (fl : List Feature) :
    (∀ f ∈ fl, f.Aligned) → ∀ (L : List (Point × DescRow)) (n : Nat),
      totalFeatures fl ≤ n →
      fl.foldlM (writeFeature width height) (Buffers.filled L n) =
        Except.ok (Buffers.filled (L ++ flattenSpec fl width height) (n - totalFeatures fl)) := by
  induction fl with
  | nil => intro _ L n _; simp [flattenSpec, totalFeatures, pure, Except.pure]
  | cons f fl ih =>
    intro hal L n hn
    have hf : f.Aligned := hal f (List.mem_cons_self _ _)
    have hrest : ∀ g ∈ fl, g.Aligned := fun g hg => hal g (List.mem_cons_of_mem _ hg)
    rw [totalFeatures_eq_sum] at hn
    simp only [List.map_cons, List.sum_cons] at hn
    rw [List.foldlM_cons, writeFeature_filled width height f hf L n (by omega)]
    simp only [bind, Except.bind]
    rw [ih hrest _ _ (by rw [totalFeatures_eq_sum]; omega)]
    simp only [flattenSpec, List.flatMap_cons, List.append_assoc, totalFeatures_eq_sum,
      List.map_cons, List.sum_cons]
    congr 2
    omega

theorem flatten_eq_spec (result : Features) (width height : Int)
    (h : ∀ f ∈ result.getFeatures, f.Aligned) :
    flatten result width height =
      Except.ok ((flattenSpec result.getFeatures width height).map Prod.fst,
                 (flattenSpec result.getFeatures width height).map Prod.snd) := by
  unfold flatten
  have := foldlM_writeFeature_filled width height result.getFeatures h []
    (totalFeatures result.getFeatures) le_rfl
  simp only [Buffers.filled, List.map_nil, List.nil_append, List.length_nil] at this
  simp only [this]
  simp

theorem foldlM_writeFeature_length {width height : Int} (fl : List Feature) :
    ∀ {b b' : Buffers}, fl.foldlM (writeFeature width height) b = Except.ok b' →
      b'.points.length = b.points.length ∧ b'.desc.length = b.desc.length := by
  induction fl with
  | nil => intro b b' h; simp [pure, Except.pure] at h; subst h; simp
  | cons f fl ih =>
    intro b b' h
    rw [List.foldlM_cons] at h
    cases hf : writeFeature width height b f with
    | error e => rw [hf] at h; simp [bind, Except.bind] at h
    | ok b1 =>
      rw [hf] at h
      simp only [bind, Except.bind] at h
      obtain ⟨h1, h2, -⟩ := foldlM_writeEntry_length _ hf
      obtain ⟨h3, h4⟩ := ih h
      exact ⟨h3.trans h1, h4.trans h2⟩

theorem flatten_length (result : Features) (width height : Int)
    (pts : List Point) (descs : List DescRow)
    (h : flatten result width height = Except.ok (pts, descs)) :
    pts.length = totalFeatures result.getFeatures ∧
      descs.length = totalFeatures result.getFeatures := by
  unfold flatten at h
  simp only at h
  split at h
  · cases h
  · rename_i b hb
    simp only [Except.ok.injEq, Prod.mk.injEq] at h
    obtain ⟨h1, h2⟩ := foldlM_writeFeature_length _ hb
    rw [← h.1, ← h.2, h1, h2]
    simp

theorem setup_same {σ κ : Type} (eng : Engine σ κ) (self : PopSiftContext σ)
    (trace : List Event) (p e : ℚ) (r : Bool) (d : ℚ) (h : self.sameParams p e r d) :
    self.setup eng trace p e r d = (none, self, trace ++ [Event.setup p e r d]) := by
  obtain ⟨h1, h2, h3, h4⟩ := h
  simp [PopSiftContext.setup, h1, h2, h3, h4]

theorem setup_changed {σ κ : Type} (eng : Engine σ κ) (self : PopSiftContext σ)
    (trace : List Event) (p e : ℚ) (r : Bool) (d : ℚ) (h : ¬ self.sameParams p e r d) :
    self.setup eng trace p e r d =
      match self.ps with
      | none =>
        match eng.construct (translatedConfig p e r d) ProcessingMode.ExtractingMode
            ImageMode.ByteImages with
        | some s => (none, PopSiftContext.applied (some s) p e r d,
            trace ++ [Event.setup p e r d, Event.construct (translatedConfig p e r d)
              ProcessingMode.ExtractingMode ImageMode.ByteImages])
        | none => (some Err.engineFailure, PopSiftContext.applied none p e r d,
            trace ++ [Event.setup p e r d, Event.construct (translatedConfig p e r d)
              ProcessingMode.ExtractingMode ImageMode.ByteImages])
      | some s =>
        (if (eng.configure s (translatedConfig p e r d) false).2 then none
          else some Err.engineFailure,
         PopSiftContext.applied (some (eng.configure s (translatedConfig p e r d) false).1)
           p e r d,
         trace ++ [Event.setup p e r d, Event.configure (translatedConfig p e r d) false]) := by
  obtain ⟨ps, cfg, p0, e0, r0, d0⟩ := self
  simp only [PopSiftContext.sameParams, not_and] at h
  by_cases h1 : p0 = p <;> by_cases h2 : e0 = e <;> by_cases h3 : r0 = r <;>
    by_cases h4 : d0 = d <;>
    first
    | exact absurd h4 (h h1 h2 h3)
    | (cases ps <;>
        simp [PopSiftContext.setup, PopSiftContext.applied, translatedConfig, h1, h2, h3, h4]
       split <;> simp_all)

theorem World.Settled.ready {σ : Type} {w : World σ} (h : w.Settled) (p e : ℚ) (r : Bool)
    (d : ℚ) : w.Ready p e r d :=
  ⟨h.1, h.2.imp fun _ hc => ⟨hc.1, Or.inl hc.2⟩⟩

theorem setup_trace {σ κ : Type} (eng : Engine σ κ) (c : PopSiftContext σ)
    (trace : List Event) (p e : ℚ) (r : Bool) (d : ℚ) :
    enqueueCount (c.setup eng trace p e r d).2.2 = enqueueCount trace ∧
      setupThresholds (c.setup eng trace p e r d).2.2 = setupThresholds trace ++ [p] := by
  by_cases hs : c.sameParams p e r d
  · rw [setup_same eng c trace p e r d hs]
    simp [enqueueCount, setupThresholds, List.filter_append, List.filterMap_append]
  · rw [setup_changed eng c trace p e r d hs]
    cases c.ps with
    | none =>
      cases eng.construct (translatedConfig p e r d) ProcessingMode.ExtractingMode
          ImageMode.ByteImages <;>
        simp [enqueueCount, setupThresholds, List.filter_append, List.filterMap_append]
    | some s =>
      simp [enqueueCount, setupThresholds, List.filter_append, List.filterMap_append]

theorem enqueueAndGet_some {σ κ : Type} (eng : Engine σ κ) (s s' : σ)
    (width height : Int) (data : List Nat) (tr tr' : List Event) (result : Features)
    (h : enqueueAndGet eng s width height data tr = (some result, s', tr')) :
    tr' = tr ++ [Event.enqueue width height, Event.jobGet] ∧
      ∃ s0 j, (eng.jobGet s0 j).2 = some result := by
  unfold enqueueAndGet at h
  rcases he : eng.enqueue s width height data with ⟨s1, oj⟩
  rw [he] at h
  cases oj with
  | none => simp at h
  | some job =>
    rcases hg : eng.jobGet s1 job with ⟨s2, ores⟩
    simp only [hg, Prod.mk.injEq] at h
    obtain ⟨h1, -, h3⟩ := h
    refine ⟨by rw [← h3]; simp, s1, job, by rw [hg, ← h1]⟩

theorem dispatch_post {σ κ : Type} (eng : Engine σ κ) (w w' : World σ)
    (width height : Int) (data : List Nat) (p e : ℚ) (r : Bool) (d : ℚ) (result : Features)
    (h : dispatch eng w width height data p e r d = (Except.ok result, w')) :
    DispatchPost eng w w' p result := by
  unfold dispatch at h
  cases hm : w.g_mutex with
  | true => simp [World.lock, hm] at h
  | false =>
    cases hc : w.ctx with
    | none => simp [World.lock, hm, hc] at h
    | some c =>
      have htr := setup_trace eng c (w.trace ++ [Event.lock]) p e r d
      rcases hsu : c.setup eng (w.trace ++ [Event.lock]) p e r d with ⟨oe, c', tr⟩
      rw [hsu] at htr
      cases oe with
      | some err => simp [World.lock, hm, hc, hsu] at h
      | none =>
        cases hps : c'.ps with
        | none => simp [World.lock, hm, hc, hsu, PopSiftContext.get, hps] at h
        | some s =>
          rcases hq : enqueueAndGet eng s width height data tr with ⟨ores, s', tr'⟩
          cases ores with
          | none => simp [World.lock, hm, hc, hsu, PopSiftContext.get, hps, hq] at h
          | some res =>
            simp [World.lock, World.unlock, hm, hc, hsu, PopSiftContext.get, hps, hq] at h
            obtain ⟨h1, h2⟩ := h
            obtain ⟨htr', hcol⟩ := enqueueAndGet_some eng s s' width height data tr tr' res hq
            subst h1 h2 htr'
            simp only at htr
            refine ⟨⟨rfl, _, rfl, rfl⟩, ?_, ?_, hcol⟩
            · simp [enqueueCount, List.filter_append] at htr ⊢
              exact htr.1
            · simp [setupThresholds, List.filterMap_append] at htr ⊢
              exact htr.2

theorem enqueueAndGet_ok {σ κ : Type} (eng : Engine σ κ) (hnf : eng.NonFailing) (s : σ)
    (width height : Int) (data : List Nat) (trace : List Event) :
    ∃ result s', enqueueAndGet eng s width height data trace =
        (some result, s', trace ++ [Event.enqueue width height, Event.jobGet]) ∧
      ∃ s0 j, (eng.jobGet s0 j).2 = some result := by
  have h1 := hnf.enqueue s width height data
  rcases he : eng.enqueue s width height data with ⟨s1, oj⟩
  rw [he] at h1
  cases oj with
  | none => simp at h1
  | some job =>
    have h2 := hnf.jobGet s1 job
    rcases hg : eng.jobGet s1 job with ⟨s2, ores⟩
    rw [hg] at h2
    cases ores with
    | none => simp at h2
    | some result =>
      refine ⟨result, s2, ?_, s1, job, by rw [hg]⟩
      simp [enqueueAndGet, he, hg]

theorem dispatch_eq {σ κ : Type} (eng : Engine σ κ) (w : World σ)
    (width height : Int) (data : List Nat) (p e : ℚ) (r : Bool) (d : ℚ)
    (c c' : PopSiftContext σ) (s s' : σ) (tr tr' : List Event) (result : Features)
    (hm : w.g_mutex = false) (hc : w.ctx = some c)
    (hsetup : c.setup eng (w.trace ++ [Event.lock]) p e r d = (none, c', tr))
    (hps : c'.ps = some s)
    (hq : enqueueAndGet eng s width height data tr = (some result, s', tr')) :
    dispatch eng w width height data p e r d =
      (Except.ok result,
        { ctx := some { c' with ps := some s' }, g_mutex := false,
          trace := tr' ++ [Event.unlock] }) := by
  simp [dispatch, World.lock, World.unlock, hm, hc, hsetup, PopSiftContext.get, hps, hq]

theorem dispatch_ok {σ κ : Type} (eng : Engine σ κ) (hnf : eng.NonFailing) (w : World σ)
    (width height : Int) (data : List Nat) (p e : ℚ) (r : Bool) (d : ℚ)
    (hready : w.Ready p e r d) :
    ∃ result w', dispatch eng w width height data p e r d = (Except.ok result, w') := by
  obtain ⟨hm, c, hc, hps⟩ := hready
  by_cases hs : c.sameParams p e r d
  · have hps' : c.ps.isSome = true := hps.resolve_right (not_not.mpr hs)
    obtain ⟨s, hs'⟩ := Option.isSome_iff_exists.mp hps'
    obtain ⟨result, s', hq, -⟩ := enqueueAndGet_ok eng hnf s width height data
      (w.trace ++ [Event.lock] ++ [Event.setup p e r d])
    exact ⟨result, _, dispatch_eq eng w width height data p e r d c c s s' _ _ result hm hc
      (setup_same eng c _ p e r d hs) hs' hq⟩
  · have hsetup := setup_changed eng c (w.trace ++ [Event.lock]) p e r d hs
    cases hcps : c.ps with
    | none =>
      rw [hcps] at hsetup
      have h1 := hnf.construct (translatedConfig p e r d) ProcessingMode.ExtractingMode
        ImageMode.ByteImages
      obtain ⟨s, hs'⟩ := Option.isSome_iff_exists.mp h1
      simp only [hs'] at hsetup
      obtain ⟨result, s', hq, -⟩ := enqueueAndGet_ok eng hnf s width height data
        (w.trace ++ [Event.lock] ++ [Event.setup p e r d, Event.construct
          (translatedConfig p e r d) ProcessingMode.ExtractingMode ImageMode.ByteImages])
      exact ⟨result, _, dispatch_eq eng w width height data p e r d c _ s s' _ _ result hm hc
        hsetup rfl hq⟩
    | some s0 =>
      rw [hcps] at hsetup
      simp only [hnf.configure, if_true] at hsetup
      obtain ⟨result, s', hq, -⟩ := enqueueAndGet_ok eng hnf
        (eng.configure s0 (translatedConfig p e r d) false).1 width height data
        (w.trace ++ [Event.lock] ++ [Event.setup p e r d, Event.configure
          (translatedConfig p e r d) false])
      exact ⟨result, _, dispatch_eq eng w width height data p e r d c _ _ s' _ _ result hm hc
        hsetup rfl hq⟩

/-! ## The retry loop: lemmas -/

theorem popsiftLoop_stop {σ κ : Type} (eng : Engine σ κ) (width height : Int)
    (data : List Nat) (e : ℚ) (target : Int) (r : Bool) (d : ℚ) (fuel : Nat)
    (w w' : World σ) (t : ℚ) (result : Features)
    (hd : dispatch eng w width height data t e r d = (Except.ok result, w'))
    (hstop : result.getFeatureCount ≥ target ∨ t < 1 / 10000) :
    popsiftLoop eng width height data e target r d (fuel + 1) w t =
      some (Except.map some (flatten result width height), w') := by
  simp only [popsiftLoop, hd]
  rw [if_pos hstop]

theorem popsiftLoop_retry {σ κ : Type} (eng : Engine σ κ) (width height : Int)
    (data : List Nat) (e : ℚ) (target : Int) (r : Bool) (d : ℚ) (fuel : Nat)
    (w w' : World σ) (t : ℚ) (result : Features)
    (hd : dispatch eng w width height data t e r d = (Except.ok result, w'))
    (hgo : ¬ (result.getFeatureCount ≥ target ∨ t < 1 / 10000)) :
    popsiftLoop eng width height data e target r d (fuel + 1) w t =
      popsiftLoop eng width height data e target r d fuel w' (t * 2 / 3) := by
  simp only [popsiftLoop, hd]
  rw [if_neg hgo]

theorem popsiftLoop_sound {σ κ : Type} (eng : Engine σ κ) (width height : Int)
    (data : List Nat) (e : ℚ) (target : Int) (r : Bool) (d : ℚ) :
    ∀ (fuel : Nat) (w w' : World σ) (t : ℚ) (out : List Point × List DescRow),
      popsiftLoop eng width height data e target r d fuel w t =
        some (Except.ok (some out), w') →
      ∃ w0 t' result,
        dispatch eng w0 width height data t' e r d = (Except.ok result, w') ∧
        flatten result width height = Except.ok out ∧
        (result.getFeatureCount ≥ target ∨ t' < 1 / 10000) := by
  intro fuel
  induction fuel with
  | zero => intro w w' t out h; simp [popsiftLoop] at h
  | succ fuel ih =>
    intro w w' t out h
    rcases hd : dispatch eng w width height data t e r d with ⟨res, w1⟩
    cases res with
    | error err => simp [popsiftLoop, hd] at h
    | ok result =>
      by_cases hstop : result.getFeatureCount ≥ target ∨ t < 1 / 10000
      · rw [popsiftLoop_stop eng width height data e target r d fuel w w1 t result hd hstop] at h
        simp only [Option.some.injEq, Prod.mk.injEq] at h
        obtain ⟨h1, h2⟩ := h
        subst h2
        refine ⟨w, t, result, hd, ?_, hstop⟩
        cases hf : flatten result width height with
        | error err => rw [hf] at h1; simp [Except.map] at h1
        | ok o => rw [hf] at h1; simp [Except.map] at h1; rw [h1]
      · rw [popsiftLoop_retry eng width height data e target r d fuel w w1 t result hd hstop] at h
        exact ih w1 w' _ out h

theorem pow_step (t : ℚ) (k : Nat) : t * 2 / 3 * (2 / 3) ^ k = t * (2 / 3) ^ (k + 1) := by
  rw [pow_succ]; ring

theorem popsiftLoop_total {σ κ : Type} (eng : Engine σ κ) (hnf : eng.NonFailing)
    (width height : Int) (data : List Nat) (e : ℚ) (target : Int) (r : Bool) (d : ℚ) :
    ∀ (K fuel : Nat) (w : World σ) (t : ℚ), w.Ready t e r d → t * (2 / 3) ^ K < 1 / 10000 →
      K + 1 ≤ fuel →
      ∃ m result w', m ≤ K ∧
        popsiftLoop eng width height data e target r d fuel w t =
          some (Except.map some (flatten result width height), w') ∧
        w'.Settled ∧
        enqueueCount w'.trace = enqueueCount w.trace + (m + 1) ∧
        setupThresholds w'.trace =
          setupThresholds w.trace ++ (List.range (m + 1)).map (fun k => t * (2 / 3) ^ k) ∧
        (∃ s j, (eng.jobGet s j).2 = some result) ∧
        (result.getFeatureCount ≥ target ∨ t * (2 / 3) ^ m < 1 / 10000) := by
  intro K
  induction K with
  | zero =>
    intro fuel w t hready hK hfuel
    obtain ⟨fuel, rfl⟩ : ∃ f, fuel = f + 1 := ⟨fuel - 1, by omega⟩
    obtain ⟨result, w1, hd⟩ := dispatch_ok eng hnf w width height data t e r d hready
    have hp := dispatch_post eng w w1 width height data t e r d result hd
    simp only [pow_zero, mul_one] at hK
    refine ⟨0, result, w1, le_rfl,
      popsiftLoop_stop eng width height data e target r d fuel w w1 t result hd (Or.inr hK),
      hp.settled, hp.enqueued, ?_, hp.collected, Or.inr (by simpa using hK)⟩
    rw [hp.thresholds]; simp [List.range_succ]
  | succ K ih =>
    intro fuel w t hready hK hfuel
    obtain ⟨fuel, rfl⟩ : ∃ f, fuel = f + 1 := ⟨fuel - 1, by omega⟩
    obtain ⟨result, w1, hd⟩ := dispatch_ok eng hnf w width height data t e r d hready
    have hp := dispatch_post eng w w1 width height data t e r d result hd
    by_cases hstop : result.getFeatureCount ≥ target ∨ t < 1 / 10000
    · refine ⟨0, result, w1, Nat.zero_le _,
        popsiftLoop_stop eng width height data e target r d fuel w w1 t result hd hstop,
        hp.settled, hp.enqueued, ?_, hp.collected, ?_⟩
      · rw [hp.thresholds]; simp [List.range_succ]
      · simpa using hstop
    · obtain ⟨m, res, w2, hm, hloop, hset, henq, hthr, hcol, hfin⟩ :=
        ih fuel w1 (t * 2 / 3) (hp.settled.ready _ e r d)
          (by rw [pow_step]; exact hK) (by omega)
      refine ⟨m + 1, res, w2, by omega, ?_, hset, ?_, ?_, hcol, ?_⟩
      · rw [popsiftLoop_retry eng width height data e target r d fuel w w1 t result hd hstop]
        exact hloop
      · rw [henq, hp.enqueued]; omega
      · rw [hthr, hp.thresholds, List.range_succ_eq_map (m + 1), List.append_assoc]
        simp [List.map_map, Function.comp_def, pow_step]
      · rw [← pow_step]; exact hfin

theorem popsiftLoop_error {σ κ : Type} (eng : Engine σ κ) (width height : Int)
    (data : List Nat) (e : ℚ) (target : Int) (r : Bool) (d : ℚ) (fuel : Nat)
    (w w' : World σ) (t : ℚ) (err : Err)
    (hd : dispatch eng w width height data t e r d = (Except.error err, w')) :
    popsiftLoop eng width height data e target r d (fuel + 1) w t =
      some (Except.error err, w') := by
  simp only [popsiftLoop, hd]

theorem popsift_of_empty {σ κ : Type} (eng : Engine σ κ) (dflt : ContextDefaults)
    (fuel : Nat) (w : World σ) (image : Image) (p e : ℚ) (target : Int) (r : Bool) (d : ℚ)
    (hempty : image.size = 0) :
    popsift eng dflt fuel w image p e target r d = some (Except.ok none, w) := by
  simp [popsift, hempty]

theorem popsift_nonempty {σ κ : Type} (eng : Engine σ κ) (dflt : ContextDefaults)
    (fuel : Nat) (w : World σ) (image : Image) (p e : ℚ) (target : Int) (r : Bool) (d : ℚ)
    (himg : image.size ≠ 0) :
    popsift eng dflt fuel w image p e target r d =
      popsiftLoop eng image.shape1 image.shape0 image.data e target r d fuel
        (ensureContext dflt w) p := by
  simp [popsift, himg]

theorem dispatch_null_handle {σ κ : Type} (eng : Engine σ κ) (w : World σ)
    (width height : Int) (data : List Nat) (p e : ℚ) (r : Bool) (d : ℚ)
    (c : PopSiftContext σ) (hm : w.g_mutex = false) (hc : w.ctx = some c)
    (hps : c.ps = none) (hs : c.sameParams p e r d) :
    dispatch eng w width height data p e r d =
      (Except.error Err.nullDeref,
        { ctx := some c, g_mutex := true,
          trace := w.trace ++ [Event.lock, Event.setup p e r d] }) := by
  simp [dispatch, World.lock, hm, hc, setup_same eng c _ p e r d hs, PopSiftContext.get, hps]

theorem dispatch_engine_throws {σ κ : Type} (eng : Engine σ κ) (w : World σ)
    (width height : Int) (data : List Nat) (p e : ℚ) (r : Bool) (d : ℚ)
    (c c' : PopSiftContext σ) (s s' : σ) (tr tr' : List Event)
    (hm : w.g_mutex = false) (hc : w.ctx = some c)
    (hsetup : c.setup eng (w.trace ++ [Event.lock]) p e r d = (none, c', tr))
    (hps : c'.ps = some s)
    (hq : enqueueAndGet eng s width height data tr = (none, s', tr')) :
    dispatch eng w width height data p e r d =
      (Except.error Err.engineFailure,
        { ctx := some { c' with ps := some s' }, g_mutex := true, trace := tr' }) := by
  simp [dispatch, World.lock, hm, hc, hsetup, PopSiftContext.get, hps, hq]

theorem popsift_first_dispatch {σ κ : Type} (eng : Engine σ κ) (dflt : ContextDefaults)
    (fuel : Nat) (w w1 : World σ) (image : Image) (p e : ℚ) (target : Int) (r : Bool) (d : ℚ)
    (result : Features) (himg : image.size ≠ 0)
    (hd : dispatch eng (ensureContext dflt w) image.shape1 image.shape0 image.data p e r d =
      (Except.ok result, w1))
    (hstop : result.getFeatureCount ≥ target ∨ p < 1 / 10000) :
    popsift eng dflt (fuel + 1) w image p e target r d =
      some (Except.map some (flatten result image.shape1 image.shape0), w1) := by
  rw [popsift_nonempty eng dflt _ w image p e target r d himg]
  exact popsiftLoop_stop eng _ _ _ e target r d fuel _ w1 p result hd hstop

theorem ensureContext_enqueueCount {σ : Type} (dflt : ContextDefaults) (w : World σ) :
    enqueueCount (ensureContext dflt w).trace = enqueueCount w.trace := by
  unfold ensureContext
  cases w.ctx <;> simp [enqueueCount, List.filter_append]

theorem ensureContext_setupThresholds {σ : Type} (dflt : ContextDefaults) (w : World σ) :
    setupThresholds (ensureContext dflt w).trace = setupThresholds w.trace := by
  unfold ensureContext
  cases w.ctx <;> simp [setupThresholds, List.filterMap_append]

theorem constEngine_nonFailing (fs : List Feature) : (constEngine fs).NonFailing :=
  ⟨fun _ _ _ => rfl, fun _ _ _ => rfl, fun _ _ _ _ => rfl, fun _ _ => rfl⟩

theorem constEngine_dispatch (fs : List Feature) (width height : Int) (data : List Nat) :
    dispatch (constEngine fs) configuredWorld width height data (1 / 10) 10 true 0 =
      (Except.ok { feature_list := fs },
        { ctx := some configuredContext, g_mutex := false,
          trace := [Event.lock, Event.setup (1 / 10) 10 true 0, Event.enqueue width height,
            Event.jobGet, Event.unlock] }) :=
  dispatch_eq (constEngine fs) configuredWorld width height data (1 / 10) 10 true 0
    configuredContext configuredContext () () _ _ { feature_list := fs } rfl rfl
    (setup_same _ _ _ _ _ _ _ ⟨rfl, rfl, rfl, rfl⟩) rfl rfl

theorem flattenSpec_entry (fl : List Feature) (width height : Int) (i : Nat) (pt : Point)
    (row : DescRow)
    (hp : ((flattenSpec fl width height).map Prod.fst)[i]? = some pt)
    (hr : ((flattenSpec fl width height).map Prod.snd)[i]? = some row) :
    ∃ f ∈ fl, ∃ (k : Nat) (o : ℚ) (dsc : Descriptor),
      f.orientation[k]? = some o ∧ f.desc[k]? = some dsc ∧
      pt = geometryTuple width height f o ∧ row = dsc.features := by
  rw [List.getElem?_map] at hp hr
  cases hi : (flattenSpec fl width height)[i]? with
  | none => rw [hi] at hp; simp at hp
  | some pr =>
    rw [hi] at hp hr
    simp only [Option.map_some', Option.some.injEq] at hp hr
    have hmem : pr ∈ flattenSpec fl width height := List.getElem?_mem hi
    simp only [flattenSpec, List.mem_flatMap, featureEntries, List.mem_map] at hmem
    obtain ⟨f, hf, od, hod, hpr⟩ := hmem
    obtain ⟨k, hk⟩ := List.getElem?_of_mem hod
    have hz := List.getElem?_zip_eq_some.mp (show (f.orientation.zip f.desc)[k]? =
      some (od.1, od.2) from hk)
    refine ⟨f, hf, k, od.1, od.2, hz.1, hz.2, ?_, ?_⟩
    · rw [← hp, ← hpr]
    · rw [← hr, ← hpr]

theorem constEngine_popsift (fs : List Feature) (halign : ∀ f ∈ fs, f.Aligned)
    (fuel : Nat) (target : Int) (htarget : target ≤ (fs.length : Int)) :
    popsift (constEngine fs) sampleDefaults (fuel + 1) configuredWorld onePixel (1 / 10) 10
        target true 0 =
      some (Except.ok (some ((flattenSpec fs 1 1).map Prod.fst,
        (flattenSpec fs 1 1).map Prod.snd)), dispatchedWorld) := by
  rw [popsift_first_dispatch (constEngine fs) sampleDefaults fuel configuredWorld
    dispatchedWorld onePixel (1 / 10) 10 target true 0 { feature_list := fs } (by decide)
    (constEngine_dispatch fs 1 1 [0]) (Or.inl htarget)]
  have := flatten_eq_spec { feature_list := fs } 1 1 halign
  simp only [Features.getFeatures] at this
  simp only [onePixel, Nat.cast_one, this]
  rfl

theorem threeKeypoints_aligned : ∀ f ∈ threeKeypoints, f.Aligned := by
  intro f hf
  simp only [threeKeypoints, List.mem_cons, List.mem_singleton, List.not_mem_nil,
    or_false] at hf
  rcases hf with rfl | rfl | rfl <;> exact ⟨rfl, rfl⟩

theorem stdRound_neg_one : stdRound (-1) = -1 := by
  unfold stdRound
  rw [if_neg (by norm_num)]
  rw [Int.ceil_eq_iff]
  constructor <;> norm_num

theorem stdRound_zero : stdRound 0 = 0 := by
  unfold stdRound
  rw [if_pos le_rfl]
  rw [Int.floor_eq_iff]
  constructor <;> norm_num

theorem flatten_no_features (width height : Int) :
    flatten { feature_list := [] } width height = Except.ok ([], []) := by
  simp [flatten, Features.getFeatures, totalFeatures, pure, Except.pure]

theorem popsiftLoop_zero_keypoints {σ κ : Type} (eng : Engine σ κ) (hnf : eng.NonFailing)
    (hzero : eng.ZeroKeypoints) (width height : Int) (data : List Nat) (e : ℚ)
    (target : Int) (r : Bool) (d : ℚ) (htarget : 1 ≤ target) (K fuel : Nat) (w : World σ)
    (t : ℚ) (hready : w.Ready t e r d) (hK : t * (2 / 3) ^ K < 1 / 10000)
    (hmin : ∀ k < K, ¬ t * (2 / 3) ^ k < 1 / 10000) (hfuel : K + 1 ≤ fuel) :
    ∃ w', popsiftLoop eng width height data e target r d fuel w t =
        some (Except.ok (some ([], [])), w') ∧
      enqueueCount w'.trace = enqueueCount w.trace + (K + 1) ∧
      setupThresholds w'.trace =
        setupThresholds w.trace ++ (List.range (K + 1)).map (fun k => t * (2 / 3) ^ k) := by
  obtain ⟨m, result, w', hm, hloop, -, henq, hthr, ⟨s, j, hcol⟩, hfin⟩ :=
    popsiftLoop_total eng hnf width height data e target r d K fuel w t hready hK hfuel
  have hres : result = { feature_list := [] } := by
    have := hzero s j
    rw [hcol] at this
    exact Option.some.inj this
  subst hres
  have hmK : m = K := by
    rcases hfin with hc | hlt
    · simp [Features.getFeatureCount] at hc
      omega
    · by_contra hne
      exact hmin m (by omega) hlt
  subst hmK
  refine ⟨w', ?_, henq, hthr⟩
  rw [hloop, flatten_no_features]
  rfl

theorem floor_reached_at_17 : (2 / 25 : ℚ) * (2 / 3) ^ 17 < 1 / 10000 := by norm_num

theorem floor_not_reached_before_17 :
    ∀ k < 17, ¬ (2 / 25 : ℚ) * (2 / 3) ^ k < 1 / 10000 := by
  intro k hk
  interval_cases k <;> norm_num

theorem least_reduction_count :
    IsLeast {k : Nat | (2 / 25 : ℚ) * (2 / 3) ^ k < 1 / 10000} 17 := by
  refine ⟨floor_reached_at_17, fun k hk => ?_⟩
  by_contra hlt
  exact floor_not_reached_before_17 k (by omega) hk

theorem ceil_log_floor_ratio :
    ⌈Real.log ((1 / 10000) / (2 / 25)) / Real.log (2 / 3)⌉₊ = 17 := by
  have hneg : Real.log (2 / 3) < 0 := Real.log_neg (by norm_num) (by norm_num)
  rw [Nat.ceil_eq_iff (by norm_num)]
  constructor
  · rw [lt_div_iff_of_neg hneg]
    have : ((17 - 1 : ℕ) : ℝ) * Real.log (2 / 3) = Real.log ((2 / 3) ^ 16) := by
      rw [Real.log_pow]
    rw [this]
    exact Real.log_lt_log (by norm_num) (by norm_num)
  · rw [div_le_iff_of_neg hneg]
    have : ((17 : ℕ) : ℝ) * Real.log (2 / 3) = Real.log ((2 / 3) ^ 17) := by
      rw [Real.log_pow]
    rw [this]
    exact Real.log_le_log (by norm_num) (by norm_num)

theorem zero_keypoints_run {σ κ : Type} (eng : Engine σ κ) (hnf : eng.NonFailing)
    (hzero : eng.ZeroKeypoints) (dflt : ContextDefaults) (fuel : Nat) (w : World σ)
    (image : Image) (e : ℚ) (target : Int) (r : Bool) (d : ℚ) (himg : image.size ≠ 0)
    (htarget : 1 ≤ target) (hready : (ensureContext dflt w).Ready (2 / 25) e r d)
    (hfuel : 18 ≤ fuel) :
    ∃ w', popsift eng dflt fuel w image (2 / 25) e target r d =
        some (Except.ok (some ([], [])), w') ∧
      enqueueCount w'.trace = enqueueCount w.trace + 18 ∧
      setupThresholds w'.trace =
        setupThresholds w.trace ++
          (List.range 18).map (fun k => (2 / 25 : ℚ) * (2 / 3) ^ k) := by
  rw [popsift_nonempty eng dflt fuel w image _ e target r d himg]
  obtain ⟨w', h1, h2, h3⟩ := popsiftLoop_zero_keypoints eng hnf hzero image.shape1
    image.shape0 image.data e target r d htarget 17 fuel (ensureContext dflt w) (2 / 25)
    hready floor_reached_at_17 floor_not_reached_before_17 hfuel
  rw [ensureContext_enqueueCount] at h2
  rw [ensureContext_setupThresholds] at h3
  exact ⟨w', h1, h2, h3⟩

theorem freshWorld_ready (p e : ℚ) (r : Bool) (d : ℚ) (hp : p ≠ 0) :
    (ensureContext sampleDefaults freshWorld).Ready p e r d :=
  ⟨rfl, PopSiftContext.new sampleDefaults, rfl, Or.inr fun h => hp h.1.symm⟩

theorem constEngine_zeroKeypoints : (constEngine []).ZeroKeypoints := fun _ _ => rfl

theorem setup_stores {σ κ : Type} (eng : Engine σ κ) (c : PopSiftContext σ)
    (trace : List Event) (p e : ℚ) (r : Bool) (d : ℚ) :
    (c.setup eng trace p e r d).2.1.sameParams p e r d := by
  by_cases hs : c.sameParams p e r d
  · rw [setup_same eng c trace p e r d hs]; exact hs
  · rw [setup_changed eng c trace p e r d hs]
    cases c.ps with
    | none =>
      cases eng.construct (translatedConfig p e r d) ProcessingMode.ExtractingMode
          ImageMode.ByteImages <;>
        exact ⟨rfl, rfl, rfl, rfl⟩
    | some s => exact ⟨rfl, rfl, rfl, rfl⟩

theorem diffCount_pos_not_same {σ : Type} (c : PopSiftContext σ) (p e : ℚ) (r : Bool)
    (d : ℚ) (h : 0 < c.diffCount p e r d) : ¬ c.sameParams p e r d := by
  rintro ⟨h1, h2, h3, h4⟩
  simp [PopSiftContext.diffCount, h1, h2, h3, h4] at h

/-! ## The claims -/

/-- C7. Empty input: for an image with zero elements `popsift` returns
`py::none()` whatever the other arguments, the engine, the member defaults and
the fuel are, and the globals are unchanged: `ctx` is as before (no context is
created), the mutex is as before, and the trace has no new call. -/
theorem popsift_empty_image {σ κ : Type} (eng : Engine σ κ) (d : ContextDefaults)
    (fuel : Nat) (w : World σ) (image : Image) (peak_threshold edge_threshold : ℚ)
    (target_num_features : Int) (use_root : Bool) (downsampling : ℚ)
    (hempty : image.size = 0) :
    popsift eng d fuel w image peak_threshold edge_threshold target_num_features use_root
      downsampling = some (Except.ok none, w) :=
  popsift_of_empty eng d fuel w image peak_threshold edge_threshold target_num_features
    use_root downsampling hempty

theorem popsift_empty_image_witness :
    emptyImage.size = 0 ∧
      popsift (constEngine [leftKeypoint]) sampleDefaults 0 freshWorld emptyImage (2 / 25) 10
        100 true 0 = some (Except.ok none, freshWorld) :=
  ⟨by decide, popsift_empty_image (constEngine [leftKeypoint]) sampleDefaults 0 freshWorld
    emptyImage (2 / 25) 10 100 true 0 (by decide)⟩

/-- C5. Reconfiguration suppression, for a context that holds a handle `s`.
A `setup` call with the stored parameters returns the context unchanged and
adds nothing to the trace but the call itself: no `configure`, no
construction. A `setup` call that differs from the stored parameters in
exactly one field adds exactly one engine call, `configure` with the
force-reallocation flag false, keeps a handle (the reconfigured one) and
constructs none. After any `setup` call the next call with the same parameters
is again a call with the stored parameters, so it configures nothing. -/
theorem setup_reconfiguration {σ κ : Type} (eng : Engine σ κ) (self : PopSiftContext σ)
    (s : σ) (trace : List Event) (p e : ℚ) (r : Bool) (d : ℚ) (p' e' : ℚ) (r' : Bool)
    (d' : ℚ) (hps : self.ps = some s) (hsame : self.sameParams p e r d)
    (hdiff : self.diffCount p' e' r' d' = 1) :
    self.setup eng trace p e r d = (none, self, trace ++ [Event.setup p e r d]) ∧
    (self.setup eng trace p' e' r' d').2.2 =
      trace ++ [Event.setup p' e' r' d',
        Event.configure (translatedConfig p' e' r' d') false] ∧
    (self.setup eng trace p' e' r' d').2.1.ps =
      some (eng.configure s (translatedConfig p' e' r' d') false).1 ∧
    (self.setup eng trace p' e' r' d').2.1.setup eng
        (self.setup eng trace p' e' r' d').2.2 p' e' r' d' =
      (none, (self.setup eng trace p' e' r' d').2.1,
        (self.setup eng trace p' e' r' d').2.2 ++ [Event.setup p' e' r' d']) := by
  have hne : ¬ self.sameParams p' e' r' d' :=
    diffCount_pos_not_same self p' e' r' d' (by omega)
  refine ⟨setup_same eng self trace p e r d hsame, ?_, ?_,
    setup_same eng _ _ p' e' r' d' (setup_stores eng self trace p' e' r' d')⟩
  · rw [setup_changed eng self trace p' e' r' d' hne, hps]
  · rw [setup_changed eng self trace p' e' r' d' hne, hps]
    rfl

theorem setup_reconfiguration_witness :
    configuredContext.ps = some () ∧
    configuredContext.setup (constEngine []) [] (1 / 10) 10 true 0 =
      (none, configuredContext, [] ++ [Event.setup (1 / 10) 10 true 0]) ∧
    (configuredContext.setup (constEngine []) [] (1 / 20) 10 true 0).2.2 =
      [] ++ [Event.setup (1 / 20) 10 true 0,
        Event.configure (translatedConfig (1 / 20) 10 true 0) false] :=
  have h := setup_reconfiguration (constEngine []) configuredContext () []
    (1 / 10) 10 true 0 (1 / 20) 10 true 0 rfl ⟨rfl, rfl, rfl, rfl⟩
    (by norm_num [PopSiftContext.diffCount, configuredContext, PopSiftContext.applied])
  ⟨rfl, h.1, h.2.1⟩

/-- C3, evaluated at the failing input. A freshly constructed context has no
handle; when the first call passes the member initial values as parameters
(here `(0, 0, true, 0)`), `setup` sees no change, returns without constructing
a handle, `get` returns null, and the enqueue call of `popsift` dereferences
it. -/
theorem setup_unchanged_builds_no_handle :
    (PopSiftContext.new sampleDefaults : PopSiftContext Unit).ps = none ∧
    ((PopSiftContext.new sampleDefaults : PopSiftContext Unit).setup (constEngine [])
      [] 0 0 true 0).2.1.get = none ∧
    popsift (constEngine []) sampleDefaults 1 freshWorld onePixel 0 0 1 true 0 =
      some (Except.error Err.nullDeref,
        { ctx := some (PopSiftContext.new sampleDefaults), g_mutex := true,
          trace := [Event.deviceSet 0 false, Event.lock, Event.setup 0 0 true 0] }) := by
  have hs : (PopSiftContext.new sampleDefaults : PopSiftContext Unit).sameParams 0 0 true 0 :=
    ⟨rfl, rfl, rfl, rfl⟩
  refine ⟨rfl, ?_, ?_⟩
  · rw [setup_same _ _ _ _ _ _ _ hs]; rfl
  · rw [popsift_nonempty _ _ _ _ _ _ _ _ _ _ (by decide)]
    exact popsiftLoop_error _ _ _ _ _ _ _ _ 0 _ _ _ _
      (dispatch_null_handle (constEngine []) (ensureContext sampleDefaults freshWorld) _ _ _
        0 0 true 0 (PopSiftContext.new sampleDefaults) rfl rfl rfl hs)

/-- C6, evaluated at the failing input. With an engine whose `enqueue` throws,
the dispatch is left through the exception and `g_mutex` is still held: the
trace has the `lock` and no `unlock`. The same dispatch with an engine that
does not throw releases the mutex. -/
theorem dispatch_exception_keeps_mutex :
    dispatch enqueueThrows configuredWorld 1 1 [0] (1 / 10) 10 true 0 =
      (Except.error Err.engineFailure,
        { ctx := some configuredContext, g_mutex := true,
          trace := [Event.lock, Event.setup (1 / 10) 10 true 0, Event.enqueue 1 1] }) ∧
    (dispatch (constEngine []) configuredWorld 1 1 [0] (1 / 10) 10 true 0).2.g_mutex
      = false := by
  have hs : configuredContext.sameParams (1 / 10) 10 true 0 := ⟨rfl, rfl, rfl, rfl⟩
  constructor
  · exact dispatch_engine_throws enqueueThrows configuredWorld 1 1 [0] (1 / 10) 10 true 0
      configuredContext configuredContext () () _ _ rfl rfl
      (setup_same _ _ _ _ _ _ _ hs) rfl rfl
  · rw [dispatch_eq (constEngine []) configuredWorld 1 1 [0] (1 / 10) 10 true 0
      configuredContext configuredContext () () _ _ { feature_list := [] } rfl rfl
      (setup_same _ _ _ _ _ _ _ hs) rfl rfl]

/-- C8. Stop on success, for a non-empty image and any engine. Every dispatch
of a run is the first dispatch of `popsiftLoop` in the state `(w0, t)` the run
has reached: when that dispatch returns a result set with
`n >= target_num_features`, the loop returns the flattening of that very
result set and the world exactly as the dispatch left it, one `enqueue` after
`w0` and nothing after the dispatch. With `target_num_features = 0` the first
dispatch of `popsift` ends the call, whatever result set it returns: exactly
one job is submitted. -/
theorem popsift_stops_on_success {σ κ : Type} (eng : Engine σ κ) (dflt : ContextDefaults)
    (fuel : Nat) (w w1 w0 w0' : World σ) (image : Image) (p t e : ℚ) (target : Int)
    (r : Bool) (d : ℚ) (result result1 : Features) (himg : image.size ≠ 0)
    (hd : dispatch eng w0 image.shape1 image.shape0 image.data t e r d =
      (Except.ok result, w0'))
    (hn : result.getFeatureCount ≥ target)
    (hfirst : dispatch eng (ensureContext dflt w) image.shape1 image.shape0 image.data
      p e r d = (Except.ok result1, w1)) :
    (popsiftLoop eng image.shape1 image.shape0 image.data e target r d (fuel + 1) w0 t =
        some (Except.map some (flatten result image.shape1 image.shape0), w0') ∧
      enqueueCount w0'.trace = enqueueCount w0.trace + 1) ∧
    (popsift eng dflt (fuel + 1) w image p e 0 r d =
        some (Except.map some (flatten result1 image.shape1 image.shape0), w1) ∧
      enqueueCount w1.trace = enqueueCount w.trace + 1) := by
  refine ⟨⟨popsiftLoop_stop eng _ _ _ e target r d fuel w0 w0' t result hd (Or.inl hn),
    (dispatch_post eng w0 w0' _ _ _ t e r d result hd).enqueued⟩,
    popsift_first_dispatch eng dflt fuel w w1 image p e 0 r d result1 himg hfirst
      (Or.inl (by simp [Features.getFeatureCount])), ?_⟩
  rw [(dispatch_post eng _ w1 _ _ _ p e r d result1 hfirst).enqueued,
    ensureContext_enqueueCount]

theorem popsift_stops_on_success_witness :
    (popsiftLoop (constEngine [twoOriKeypoint]) onePixel.shape1 onePixel.shape0 onePixel.data
        10 1 true 0 (4 + 1) configuredWorld (1 / 10) =
        some (Except.map some
          (flatten { feature_list := [twoOriKeypoint] } onePixel.shape1 onePixel.shape0),
          { ctx := some configuredContext, g_mutex := false,
            trace := [Event.lock, Event.setup (1 / 10) 10 true 0, Event.enqueue 1 1,
              Event.jobGet, Event.unlock] }) ∧
      enqueueCount [Event.lock, Event.setup (1 / 10) 10 true 0, Event.enqueue 1 1,
              Event.jobGet, Event.unlock] = enqueueCount configuredWorld.trace + 1) ∧
    (popsift (constEngine [twoOriKeypoint]) sampleDefaults (4 + 1) configuredWorld onePixel
        (1 / 10) 10 0 true 0 =
        some (Except.map some
          (flatten { feature_list := [twoOriKeypoint] } onePixel.shape1 onePixel.shape0),
          { ctx := some configuredContext, g_mutex := false,
            trace := [Event.lock, Event.setup (1 / 10) 10 true 0, Event.enqueue 1 1,
              Event.jobGet, Event.unlock] }) ∧
      enqueueCount [Event.lock, Event.setup (1 / 10) 10 true 0, Event.enqueue 1 1,
              Event.jobGet, Event.unlock] = enqueueCount configuredWorld.trace + 1) :=
  popsift_stops_on_success (constEngine [twoOriKeypoint]) sampleDefaults 4 configuredWorld
    _ configuredWorld _ onePixel (1 / 10) (1 / 10) 10 1 true 0 _ _ (by decide)
    (constEngine_dispatch [twoOriKeypoint] 1 1 [0]) (by decide)
    (constEngine_dispatch [twoOriKeypoint] 1 1 [0])

/-- C9. Length alignment: whenever `popsift` returns a tuple of two lists, the
lists have the same length, and that length is the sum of `num_ori` over the
keypoints of the final result set, the one returned by the dispatch that left
the final world and met a stop condition. A keypoint with `num_ori = 0` adds
nothing. (A returned tuple implies a non-empty image.) -/
theorem popsift_output_lengths {σ κ : Type} (eng : Engine σ κ) (dflt : ContextDefaults)
    (fuel : Nat) (w w' : World σ) (image : Image) (p e : ℚ) (target : Int) (r : Bool)
    (d : ℚ) (pts : List Point) (descs : List DescRow)
    (h : popsift eng dflt fuel w image p e target r d =
      some (Except.ok (some (pts, descs)), w')) :
    image.size ≠ 0 ∧
    ∃ w0 t result,
      dispatch eng w0 image.shape1 image.shape0 image.data t e r d =
        (Except.ok result, w') ∧
      (result.getFeatureCount ≥ target ∨ t < 1 / 10000) ∧
      pts.length = descs.length ∧
      pts.length = (result.getFeatures.map Feature.num_ori).sum := by
  have himg : image.size ≠ 0 := by
    intro h0
    rw [popsift_of_empty eng dflt fuel w image p e target r d h0] at h
    simp at h
  rw [popsift_nonempty eng dflt fuel w image p e target r d himg] at h
  obtain ⟨w0, t, result, hd, hf, hstop⟩ :=
    popsiftLoop_sound eng _ _ _ e target r d fuel _ w' p (pts, descs) h
  obtain ⟨h1, h2⟩ := flatten_length result _ _ pts descs hf
  exact ⟨himg, w0, t, result, hd, hstop, h1.trans h2.symm,
    h1.trans (totalFeatures_eq_sum _)⟩

theorem popsift_output_lengths_witness :
    onePixel.size ≠ 0 ∧
    ∃ w0 t result,
      dispatch (constEngine threeKeypoints) w0 onePixel.shape1 onePixel.shape0 onePixel.data
        t 10 true 0 = (Except.ok result, dispatchedWorld) ∧
      (result.getFeatureCount ≥ 3 ∨ t < 1 / 10000) ∧
      ((flattenSpec threeKeypoints 1 1).map Prod.fst).length =
        ((flattenSpec threeKeypoints 1 1).map Prod.snd).length ∧
      ((flattenSpec threeKeypoints 1 1).map Prod.fst).length =
        (result.getFeatures.map Feature.num_ori).sum :=
  popsift_output_lengths (constEngine threeKeypoints) sampleDefaults (0 + 1) configuredWorld
    dispatchedWorld onePixel (1 / 10) 10 3 true 0 _ _
    (constEngine_popsift threeKeypoints threeKeypoints_aligned 0 3 (by decide))

/-- C10. Flattening order and content: for a result set whose keypoints each
have exactly `num_ori` orientations and `num_ori` descriptors, the two-pass
flattening of the code (count, allocate, write at a running index) succeeds and
returns the two projections of `flattenSpec`: the concatenation, over the
keypoints in result-set order and within a keypoint over the orientation
indices in list order, of the pair (geometry tuple of the keypoint and
`orientation[k]`, the 128 components of `desc[k]` unchanged). Entry `i` of the
geometry list and entry `i` of the descriptor list therefore come from the same
keypoint `f` and the same orientation index `k`. -/
theorem flatten_order_and_content (result : Features) (width height : Int)
    (halign : ∀ f ∈ result.getFeatures, f.Aligned) :
    flatten result width height =
      Except.ok ((flattenSpec result.getFeatures width height).map Prod.fst,
        (flattenSpec result.getFeatures width height).map Prod.snd) ∧
    ∀ (i : Nat) (pt : Point) (row : DescRow),
      ((flattenSpec result.getFeatures width height).map Prod.fst)[i]? = some pt →
      ((flattenSpec result.getFeatures width height).map Prod.snd)[i]? = some row →
      ∃ f ∈ result.getFeatures, ∃ (k : Nat) (o : ℚ) (dsc : Descriptor),
        f.orientation[k]? = some o ∧ f.desc[k]? = some dsc ∧
        pt = (stdMin (stdRound f.xpos) ((width - 1 : Int) : ℚ),
              stdMin (stdRound f.ypos) ((height - 1 : Int) : ℚ), f.sigma, o) ∧
        row = dsc.features :=
  ⟨flatten_eq_spec result width height halign,
    fun i pt row hp hr => flattenSpec_entry result.getFeatures width height i pt row hp hr⟩

theorem flatten_order_and_content_witness :
    flatten { feature_list := threeKeypoints } 10 20 =
      Except.ok ((flattenSpec threeKeypoints 10 20).map Prod.fst,
        (flattenSpec threeKeypoints 10 20).map Prod.snd) ∧
    (flattenSpec threeKeypoints 10 20).map Prod.fst =
      [((4 : ℚ), (9 : ℚ), (2 : ℚ), (1 : ℚ)), (4, 9, 2, 3), (-1, 0, 1, 0)] :=
  ⟨(flatten_order_and_content { feature_list := threeKeypoints } 10 20
      threeKeypoints_aligned).1,
    by
      have h4 : stdRound (7 / 2) = 4 := by
        unfold stdRound
        rw [if_pos (by norm_num), Int.floor_eq_iff]
        constructor <;> norm_num
      have h9 : stdRound 9 = 9 := by
        unfold stdRound
        rw [if_pos (by norm_num), Int.floor_eq_iff]
        constructor <;> norm_num
      norm_num [flattenSpec, featureEntries, geometryTuple, threeKeypoints, twoOriKeypoint,
        noOriKeypoint, leftKeypoint, stdRound_neg_one, stdRound_zero, h4, h9, stdMin]⟩

/-- C1, counterexample. An engine that never throws and reports no keypoint,
`target_num_features = 1`, `peak_threshold = 0.08`, first call of the process:
`popsift` returns two empty lists after 18 `enqueue` calls, one more than
`ceil(log(0.0001/0.08) / log(2/3)) = 17`. -/
theorem zero_keypoints_dispatch_count :
    (popsift (constEngine []) sampleDefaults 18 freshWorld onePixel (2 / 25) 10 1 true 0).map
        (fun out => (out.1, enqueueCount out.2.trace)) =
      some (Except.ok (some ([], [])), 18) ∧
    ⌈Real.log ((1 / 10000) / (2 / 25)) / Real.log (2 / 3)⌉₊ = 17 ∧
    (18 : Nat) ≠ ⌈Real.log ((1 / 10000) / (2 / 25)) / Real.log (2 / 3)⌉₊ := by
  obtain ⟨w', h1, h2, -⟩ := zero_keypoints_run (constEngine []) (constEngine_nonFailing [])
    constEngine_zeroKeypoints sampleDefaults 18 freshWorld onePixel 10 1 true 0 (by decide)
    le_rfl (freshWorld_ready (2 / 25) 10 true 0 (by norm_num)) le_rfl
  refine ⟨?_, ceil_log_floor_ratio, by rw [ceil_log_floor_ratio]; decide⟩
  rw [h1]
  simp only [Option.map_some', h2]
  rfl

/-- C1, amended. For a non-empty image, an engine that never throws and
reports zero keypoints for every job, `target_num_features >= 1` and
`peak_threshold = 0.08` (thresholds as exact rationals), `popsift` performs
exactly 18 dispatches, at the thresholds `0.08 * (2/3)^k` for `k = 0 .. 17`,
and then returns two zero-length lists. The number of threshold reductions is
17, the least `K` with `0.08 * (2/3)^K < 0.0001`, which is
`ceil(log(0.0001/0.08) / log(2/3))`; the floor test follows the dispatch, so
the dispatch at the first threshold below the floor is still made. -/
theorem zero_keypoints_eighteen_dispatches {σ κ : Type} (eng : Engine σ κ)
    (hnf : eng.NonFailing) (hzero : eng.ZeroKeypoints) (dflt : ContextDefaults) (fuel : Nat)
    (w : World σ) (image : Image) (e : ℚ) (target : Int) (r : Bool) (d : ℚ)
    (himg : image.size ≠ 0) (htarget : 1 ≤ target)
    (hready : (ensureContext dflt w).Ready (2 / 25) e r d) (hfuel : 18 ≤ fuel) :
    (∃ w', popsift eng dflt fuel w image (2 / 25) e target r d =
        some (Except.ok (some ([], [])), w') ∧
      enqueueCount w'.trace = enqueueCount w.trace + 18 ∧
      setupThresholds w'.trace =
        setupThresholds w.trace ++
          (List.range 18).map (fun k => (2 / 25 : ℚ) * (2 / 3) ^ k)) ∧
    IsLeast {k : Nat | (2 / 25 : ℚ) * (2 / 3) ^ k < 1 / 10000} 17 ∧
    ⌈Real.log ((1 / 10000) / (2 / 25)) / Real.log (2 / 3)⌉₊ + 1 = 18 :=
  ⟨zero_keypoints_run eng hnf hzero dflt fuel w image e target r d himg htarget hready hfuel,
    least_reduction_count, by rw [ceil_log_floor_ratio]⟩

theorem zero_keypoints_eighteen_dispatches_witness :
    (∃ w', popsift (constEngine []) sampleDefaults 20 freshWorld onePixel (2 / 25) 10 5
        true 0 = some (Except.ok (some ([], [])), w') ∧
      enqueueCount w'.trace = enqueueCount freshWorld.trace + 18 ∧
      setupThresholds w'.trace =
        setupThresholds freshWorld.trace ++
          (List.range 18).map (fun k => (2 / 25 : ℚ) * (2 / 3) ^ k)) ∧
    IsLeast {k : Nat | (2 / 25 : ℚ) * (2 / 3) ^ k < 1 / 10000} 17 ∧
    ⌈Real.log ((1 / 10000) / (2 / 25)) / Real.log (2 / 3)⌉₊ + 1 = 18 :=
  zero_keypoints_eighteen_dispatches (constEngine []) (constEngine_nonFailing [])
    constEngine_zeroKeypoints sampleDefaults 20 freshWorld onePixel 10 5 true 0 (by decide)
    (by decide) (freshWorld_ready (2 / 25) 10 true 0 (by norm_num)) (by decide)

end pps
